import Mathlib

/-!
Shallow embedding of the realtime session-transport module of the Chat2Earn
repository (the `RealtimeService` class of `lib/realtime-communication`,
found in `src/unnamed/part_001`, lines 509-840 of the concatenated file).

Modelling conventions, each noted again at its definition:
  - the instance fields of the class become the record `RealtimeService.State`;
  - the socket (`Socket | null`) is `Option Socket`, where the model `Socket`
    keeps only the `connected` flag that the code reads;
  - effects are returned explicitly: connection-status callbacks as a
    `List ConnStatus`, calls to `sendRealtimeMessage` as a
    `List RealtimeMessage` (the mock `sendRealtimeMessage` only logs, so a
    transmission is exactly one such call), and the `setTimeout` armed by
    `scheduleReconnect` as an `Option Nat` delay;
  - ambient inputs (`nanoid()`, `Date.now()`, `navigator.userAgent`, the
    outcome of `await encryptMessage(...)`, and whether the body of the
    `try` in `connect` throws) are passed as arguments;
  - the JS event loop's set of armed timers is modelled by the state fields
    `heartbeatInterval` (the stored interval handle) and `pendingReconnect`
    (the reconnect `setTimeout`, whose handle the code does NOT store).
-/

/-- `'connected' | 'disconnected' | 'reconnecting'` of the
`onConnectionStatusChange` callback. -/
inductive ConnStatus where
  | connected
  | disconnected
  | reconnecting
deriving Repr, DecidableEq

/-- `'text' | 'file' | 'image'`, the `messageType` parameter of
`sendMessage`. -/
inductive MessageType where
  | text
  | file
  | image
deriving Repr, DecidableEq

/-- `'online' | 'away' | 'busy' | 'offline'`, the `status` parameter of
`updatePresence`. -/
inductive PresenceStatus where
  | online
  | away
  | busy
  | offline
deriving Repr, DecidableEq

/-- The file descriptor `{ url; name; size; type }` optionally passed to
`sendMessage`. -/
structure FileData where
  url : String
  name : String
  size : Nat
  type : String
deriving Repr, DecidableEq

/-- The `type` field of a `RealtimeMessage`:
`'message' | 'typing' | 'presence' | 'delivery_receipt' | 'read_receipt'`. -/
inductive MsgKind where
  | message
  | typing
  | presence
  | delivery_receipt
  | read_receipt
deriving Repr, DecidableEq

/-- The `data: any` payloads actually constructed by the class, one
constructor per construction site. -/
inductive MsgData where
  /-- `sendMessage`: `{ messageId, content: encrypted, nonce, messageType,
  fileData, timestamp }`. -/
  | messageData (messageId content nonce : String) (messageType : MessageType)
      (fileData : Option FileData) (timestamp : Nat)
  /-- `sendTypingIndicator`: `{ isTyping }`. -/
  | typingData (isTyping : Bool)
  /-- `updatePresence`: `{ status, lastSeen, device }`. -/
  | presenceData (status : PresenceStatus) (lastSeen : Nat) (device : String)
  /-- `sendDeliveryReceipt` / `sendReadReceipt`: `{ messageId, timestamp }`. -/
  | receiptData (messageId : String) (timestamp : Nat)
deriving Repr, DecidableEq

/-- The `RealtimeMessage` interface. The TS fields `from` / `to` are named
`fromId` / `toId` (`from` is reserved in Lean). `fromId` is an `Option`
because the code fills it with `this.currentUser!`, a compile-time-only
assertion: at runtime a `null` user is passed through unchanged. -/
structure RealtimeMessage where
  id : String
  type : MsgKind
  fromId : Option String
  toId : String
  data : MsgData
  timestamp : Nat
  signature : Option String := none
deriving Repr, DecidableEq

/-- The slice of the socket.io `Socket` that the class reads: its
`connected` flag. -/
structure Socket where
  connected : Bool
deriving Repr, DecidableEq

namespace RealtimeService

/-- The private instance fields of `class RealtimeService`, plus
`pendingReconnect`, which models the reconnect `setTimeout` armed by
`scheduleReconnect` (as the delay it was armed with). The code never stores
that timeout's handle, so no code path can clear it; the field lets the
model say so. The listener slots are not part of the state: callbacks are
modelled as emitted effect lists. -/
structure State where
  socket : Option Socket
  currentUser : Option String
  messageQueue : List RealtimeMessage
  reconnectAttempts : Nat
  maxReconnectAttempts : Nat
  heartbeatInterval : Bool
  pendingReconnect : Option Nat
deriving Repr, DecidableEq

/-- Field initializers of the class: `socket = null`, `currentUser = null`,
`messageQueue = []`, `reconnectAttempts = 0`, `maxReconnectAttempts = 5`,
`heartbeatInterval = null`. (The constructor also starts the demo-only
simulation timers of `initializeMockConnection`, which are outside the
transport contract and not modelled.) -/
def initialState : State :=
  { socket := none
    currentUser := none
    messageQueue := []
    reconnectAttempts := 0
    maxReconnectAttempts := 5
    heartbeatInterval := false
    pendingReconnect := none }

/-- `private isConnected(): boolean { return this.socket?.connected || true; }`
— the `|| true` is commented in the source as
"Mock as always connected for demo". `socket?.connected` is `undefined`
(falsy, here `false`) when `socket` is `null`. -/
def isConnected (s : State) : Bool :=
  (s.socket.map Socket.connected).getD false || true

/-- `private startHeartbeat()`: stores a 30s `setInterval` in
`this.heartbeatInterval`. Modelled as arming the heartbeat flag. -/
def startHeartbeat (s : State) : State :=
  { s with heartbeatInterval := true }

/-- The `while` loop of `private processMessageQueue()`: each iteration
`shift`s the head of the queue and passes it to `sendRealtimeMessage`.
Returns the transmissions in the order they are sent. -/
def processMessageQueueLoop : List RealtimeMessage → List RealtimeMessage
  | [] => []
  | message :: rest => message :: processMessageQueueLoop rest

/-- `private processMessageQueue()`: drains `this.messageQueue` front-first,
transmitting each dequeued message. Returns the new state and the list of
transmitted messages. -/
def processMessageQueue (s : State) : State × List RealtimeMessage :=
  ({ s with messageQueue := [] }, processMessageQueueLoop s.messageQueue)

/-- `private scheduleReconnect()`: if `reconnectAttempts <
maxReconnectAttempts`, increment the counter, compute
`delay = Math.min(1000 * Math.pow(2, this.reconnectAttempts), 30000)` (note:
with the counter already incremented), and arm a `setTimeout(delay)`;
otherwise do nothing. Returns the new state and the armed delay (as the
effect of the `setTimeout` call), `none` when nothing was scheduled. -/
def scheduleReconnect (s : State) : State × Option Nat :=
  if s.reconnectAttempts < s.maxReconnectAttempts then
    let attempts := s.reconnectAttempts + 1
    let delay := min (1000 * 2 ^ attempts) 30000
    ({ s with reconnectAttempts := attempts, pendingReconnect := some delay },
     some delay)
  else
    (s, none)

/-- The body of the `try` block of `connect`. In the shipped code the
(commented-out) socket.io handshake is replaced by the mock success path:
notify `'connected'`, `startHeartbeat()`, `processMessageQueue()`. The
`fail` flag models the body throwing (the underlying transport erroring),
which is what the `catch` below handles. -/
def connectTryBody (s : State) (fail : Bool) :
    Except String (State × List ConnStatus × List RealtimeMessage) :=
  if fail then
    Except.error "connect error"
  else
    let s1 := startHeartbeat s
    let drained := processMessageQueue s1
    Except.ok (drained.1, [ConnStatus.connected], drained.2)

/-- The result of `connect`: new state, connection-status notifications in
emission order, messages passed to `sendRealtimeMessage` in order, and the
reconnect delay armed by `scheduleReconnect` (if any). -/
structure ConnectOutcome where
  state : State
  notified : List ConnStatus
  sent : List RealtimeMessage
  armedDelay : Option Nat
deriving Repr, DecidableEq

/-- `async connect(userId, authToken?)`: sets `this.currentUser = userId`,
then runs the `try` body; on a throw the `catch` logs, notifies
`'disconnected'`, and calls `scheduleReconnect()`. The error is swallowed:
`connect` always resolves, which the total return type records. Note that
the success path never writes `reconnectAttempts`. -/
def connect (s : State) (userId : String) (fail : Bool) : ConnectOutcome :=
  let s0 := { s with currentUser := some userId }
  match connectTryBody s0 fail with
  | Except.ok (s1, notes, sent) =>
      { state := s1, notified := notes, sent := sent, armedDelay := none }
  | Except.error _ =>
      let scheduled := scheduleReconnect s0
      { state := scheduled.1
        notified := [ConnStatus.disconnected]
        sent := []
        armedDelay := scheduled.2 }

/-- `disconnect()`: if a socket exists, `socket.disconnect()` and null it;
if the heartbeat interval exists, `clearInterval` and null it; then notify
`'disconnected'` — unconditionally, on every call. `messageQueue`,
`currentUser`, `reconnectAttempts` and the pending reconnect timeout are
not touched. -/
def disconnect (s : State) : State × List ConnStatus :=
  let s1 :=
    match s.socket with
    | some _ => { s with socket := none }
    | none => s
  let s2 :=
    if s1.heartbeatInterval then { s1 with heartbeatInterval := false }
    else s1
  (s2, [ConnStatus.disconnected])

/-- The callback of the `setTimeout` armed in `scheduleReconnect`: notify
`'reconnecting'`, then `this.connect(this.currentUser!)`. Firing consumes
the pending timer. `fail` is the new attempt's handshake outcome. -/
def reconnectTimerFire (s : State) (fail : Bool) : ConnectOutcome :=
  let s0 := { s with pendingReconnect := none }
  let o := connect s0 (s0.currentUser.getD "") fail
  { o with notified := ConnStatus.reconnecting :: o.notified }

/-- `async sendMessage(content, recipientPublicKey, senderPrivateKey,
messageType, fileData)`: generates `messageId = nanoid()` (here the
argument `messageId`), awaits `encryptMessage(content, senderPrivateKey,
recipient)` (the external encryption capability, passed as the function
`enc`; `none` means it threw, and `sendMessage` rethrows — the `none`
result), builds the `RealtimeMessage`, then: if `isConnected()`,
`sendRealtimeMessage` it, else push it onto `messageQueue`. Returns the
new state, the transmissions, and the returned `messageId`. -/
def sendMessage (s : State) (content recipientPublicKey : String)
    (messageType : MessageType) (fileData : Option FileData)
    (messageId : String) (now : Nat)
    (enc : String → Option (String × String)) :
    Option (State × List RealtimeMessage × String) :=
  match enc content with
  | none => none
  | some (encrypted, nonce) =>
      let realtimeMessage : RealtimeMessage :=
        { id := messageId
          type := MsgKind.message
          fromId := s.currentUser
          toId := recipientPublicKey
          data := MsgData.messageData messageId encrypted nonce messageType
            fileData now
          timestamp := now }
      if isConnected s then
        some (s, [realtimeMessage], messageId)
      else
        some ({ s with messageQueue := s.messageQueue ++ [realtimeMessage] },
          [], messageId)

/-- `sendTypingIndicator(recipientPublicKey, isTyping)`: early-return
(dropping the envelope) if `!this.isConnected()`, else build the typing
`RealtimeMessage` (`id = nanoid()`, passed as `msgId`) and
`sendRealtimeMessage` it. -/
def sendTypingIndicator (s : State) (recipientPublicKey : String)
    (isTyping : Bool) (msgId : String) (now : Nat) :
    State × List RealtimeMessage :=
  if !(isConnected s) then (s, [])
  else
    let message : RealtimeMessage :=
      { id := msgId
        type := MsgKind.typing
        fromId := s.currentUser
        toId := recipientPublicKey
        data := MsgData.typingData isTyping
        timestamp := now }
    (s, [message])

/-- `updatePresence(status)`: early-return if `!this.isConnected()`, else
build the presence `RealtimeMessage` (`to: 'broadcast'`, `device:
navigator.userAgent` passed as `device`) and `sendRealtimeMessage` it. -/
def updatePresence (s : State) (status : PresenceStatus) (msgId : String)
    (now : Nat) (device : String) : State × List RealtimeMessage :=
  if !(isConnected s) then (s, [])
  else
    let message : RealtimeMessage :=
      { id := msgId
        type := MsgKind.presence
        fromId := s.currentUser
        toId := "broadcast"
        data := MsgData.presenceData status now device
        timestamp := now }
    (s, [message])

/-- `sendDeliveryReceipt(messageId, senderPublicKey)`: early-return if
`!this.isConnected()`, else build and transmit the delivery receipt. -/
def sendDeliveryReceipt (s : State) (messageId senderPublicKey : String)
    (msgId : String) (now : Nat) : State × List RealtimeMessage :=
  if !(isConnected s) then (s, [])
  else
    let message : RealtimeMessage :=
      { id := msgId
        type := MsgKind.delivery_receipt
        fromId := s.currentUser
        toId := senderPublicKey
        data := MsgData.receiptData messageId now
        timestamp := now }
    (s, [message])

/-- `sendReadReceipt(messageId, senderPublicKey)`: early-return if
`!this.isConnected()`, else build and transmit the read receipt. -/
def sendReadReceipt (s : State) (messageId senderPublicKey : String)
    (msgId : String) (now : Nat) : State × List RealtimeMessage :=
  if !(isConnected s) then (s, [])
  else
    let message : RealtimeMessage :=
      { id := msgId
        type := MsgKind.read_receipt
        fromId := s.currentUser
        toId := senderPublicKey
        data := MsgData.receiptData messageId now
        timestamp := now }
    (s, [message])

/-- A run of `n` consecutive failing `connect(userId)` calls from state
`s`, collecting the reconnect delays armed along the way, in order. -/
def failureRun (userId : String) : Nat → State → State × List Nat
  | 0, s => (s, [])
  | Nat.succ n, s =>
      let o := connect s userId true
      let rest := failureRun userId n o.state
      (rest.1, o.armedDelay.toList ++ rest.2)

end RealtimeService

open RealtimeService

/-- A state with no socket and no heartbeat, as left by the field
initializers, with `currentUser` set to `"alice"`: the session is not
connected in the conceptual sense (`socket` is `null`, no successful
handshake recorded). -/
def disconnectedAlice : State :=
  { initialState with currentUser := some "alice" }

/-- A state with a live connected socket and a running heartbeat, as a
session that completed a handshake would hold. -/
def connectedAlice : State :=
  { initialState with
      socket := some { connected := true }
      currentUser := some "alice"
      heartbeatInterval := true }

/-- The `while` loop of `processMessageQueue` transmits exactly the queue
contents, in FIFO order. -/
theorem processMessageQueueLoop_eq (l : List RealtimeMessage) :
    processMessageQueueLoop l = l := by
  induction l with
  | nil => rfl
  | cons message rest ih => simp [processMessageQueueLoop, ih]

/-- Claim C1, behaviour of the code at the failing input: with no socket
(the session never connected), a `sendMessage` call is transmitted
immediately and `messageQueue` stays empty, because `isConnected()` is
hardcoded truthy; the envelope never appears in the outbound queue,
contrary to the claim. -/
theorem c1_send_while_disconnected_is_transmitted_not_queued :
    disconnectedAlice.socket = none
    ∧ sendMessage disconnectedAlice "hi" "bob" MessageType.text none "m1" 5
        (fun _ => some ("ct", "n0"))
      = some (disconnectedAlice,
          [{ id := "m1"
             type := MsgKind.message
             fromId := some "alice"
             toId := "bob"
             data := MsgData.messageData "m1" "ct" "n0" MessageType.text none 5
             timestamp := 5 }],
          "m1")
    ∧ (sendMessage disconnectedAlice "hi" "bob" MessageType.text none "m1" 5
        (fun _ => some ("ct", "n0"))).map (fun r => r.1.messageQueue)
      = some [] := by
  refine ⟨rfl, rfl, rfl⟩

/-- Claim C2 counterexample: over 5 consecutive failing `connect` calls
with the default parameters, the armed delays are 2s, 4s, 8s, 16s, 30s —
not the claimed 1s, 2s, 4s, 8s, 16s (the code increments the attempt
counter before computing the delay, and the cap is reached on the 5th
attempt). -/
theorem c2_counterexample_first_delay_is_2000 :
    (failureRun "alice" 5 initialState).2 = [2000, 4000, 8000, 16000, 30000]
    ∧ (failureRun "alice" 5 initialState).2
        ≠ [1000, 2000, 4000, 8000, 16000] := by
  refine ⟨by decide, by decide⟩

/-- Claim C2 as amended: if `connect` fails 5 consecutive times with the
default parameters, the scheduled reconnect delays are 2s, 4s, 8s, 16s,
30s (the last capped at `maxDelay` 30s); a 6th failure arms no further
timeout, and its only notification is `'disconnected'`. -/
theorem c2_amended_delay_schedule :
    (failureRun "alice" 5 initialState).2 = [2000, 4000, 8000, 16000, 30000]
    ∧ (failureRun "alice" 6 initialState).2 = [2000, 4000, 8000, 16000, 30000]
    ∧ (connect (failureRun "alice" 5 initialState).1 "alice" true).armedDelay
        = none
    ∧ (connect (failureRun "alice" 5 initialState).1 "alice" true).notified
        = [ConnStatus.disconnected] := by
  refine ⟨by decide, by decide, by decide, by decide⟩

/-- Claim C3: on a failed connection, `scheduleReconnect` arms a retry with
`delay = min(baseDelay * 2 ^ attempt, maxDelay)` where `attempt` is the
counter after its increment (so it starts at 1 and increments on each
failure); the delay function is non-decreasing in the attempt number and
bounded by `maxDelay = 30000`; and once `maxAttempts` consecutive failures
have accumulated, `scheduleReconnect` arms nothing and leaves the state
unchanged. -/
theorem c3_backoff_formula (s : State) (n : Nat) :
    ((scheduleReconnect s).2
        = if s.reconnectAttempts < s.maxReconnectAttempts
          then some (min (1000 * 2 ^ (s.reconnectAttempts + 1)) 30000)
          else none)
    ∧ ((scheduleReconnect s).1.reconnectAttempts
        = if s.reconnectAttempts < s.maxReconnectAttempts
          then s.reconnectAttempts + 1
          else s.reconnectAttempts)
    ∧ min (1000 * 2 ^ n) 30000 ≤ min (1000 * 2 ^ (n + 1)) 30000
    ∧ min (1000 * 2 ^ n) 30000 ≤ 30000
    ∧ (s.maxReconnectAttempts ≤ s.reconnectAttempts →
        scheduleReconnect s = (s, none)) := by
  refine ⟨?_, ?_, ?_, ?_, ?_⟩
  · unfold scheduleReconnect
    split <;> rfl
  · unfold scheduleReconnect
    split <;> rfl
  · exact min_le_min
      (Nat.mul_le_mul_left 1000
        (Nat.pow_le_pow_right (by norm_num) (Nat.le_succ n)))
      (Nat.le_refl 30000)
  · exact Nat.min_le_right _ _
  · intro h
    unfold scheduleReconnect
    rw [if_neg (Nat.not_lt.mpr h)]

/-- Witness for `c3_backoff_formula`: at a state with the retry budget
exhausted (5 of 5 attempts used), `scheduleReconnect` arms nothing. -/
theorem c3_backoff_formula_witness :
    scheduleReconnect { initialState with reconnectAttempts := 5 }
      = ({ initialState with reconnectAttempts := 5 }, none) :=
  (c3_backoff_formula { initialState with reconnectAttempts := 5 } 0).2.2.2.2
    (by decide)

/-- Claim C4, behaviour of the code at the failing input: a successful
`connect` never writes `reconnectAttempts` (shown for every state), and in
particular from a state with 3 recorded failures the counter is still 3
after a successful connect, not 0 as the claim requires. -/
theorem c4_connect_success_does_not_reset_attempts :
    (∀ (s : State) (u : String),
        (connect s u false).state.reconnectAttempts = s.reconnectAttempts)
    ∧ (connect { initialState with reconnectAttempts := 3 } "alice"
        false).state.reconnectAttempts = 3 := by
  constructor
  · intro s u
    simp [connect, connectTryBody, startHeartbeat, processMessageQueue]
  · decide

/-- Claim C5, behaviour of the code at the failing input: with no socket,
`sendTypingIndicator` and `updatePresence` do not drop their envelopes —
the `!isConnected()` guard is unreachable because `isConnected()` is
hardcoded truthy — and instead transmit them immediately (state unchanged,
one `sendRealtimeMessage` call each); the queue is indeed untouched. -/
theorem c5_ephemeral_transmitted_while_disconnected :
    disconnectedAlice.socket = none
    ∧ sendTypingIndicator disconnectedAlice "bob" true "t1" 7
      = (disconnectedAlice,
         [{ id := "t1"
            type := MsgKind.typing
            fromId := some "alice"
            toId := "bob"
            data := MsgData.typingData true
            timestamp := 7 }])
    ∧ updatePresence disconnectedAlice PresenceStatus.online "p1" 7 "ua"
      = (disconnectedAlice,
         [{ id := "p1"
            type := MsgKind.presence
            fromId := some "alice"
            toId := "broadcast"
            data := MsgData.presenceData PresenceStatus.online 7 "ua"
            timestamp := 7 }]) := by
  refine ⟨rfl, rfl, rfl⟩

/-- Claim C6 counterexample: from a connected session, two successive
`disconnect` calls emit two `'disconnected'` status notifications, not
exactly one — the notification at the end of `disconnect` is
unconditional. -/
theorem c6_counterexample_two_notifications :
    (disconnect connectedAlice).2
        ++ (disconnect (disconnect connectedAlice).1).2
      = [ConnStatus.disconnected, ConnStatus.disconnected] := by
  decide

/-- Claim C6 as amended: `disconnect` is idempotent on the session state —
the second of two successive calls changes nothing — but every call,
including the second, emits one `'disconnected'` status notification, so
two calls produce two notifications rather than one. -/
theorem c6_amended_idempotent_on_state_notify_each_call (s : State) :
    disconnect ((disconnect s).1) = ((disconnect s).1, [ConnStatus.disconnected])
    ∧ (disconnect s).2 = [ConnStatus.disconnected] := by
  constructor
  · unfold disconnect
    rcases hs : s.socket with _ | sock <;>
      by_cases hb : s.heartbeatInterval <;>
        simp [hs, hb]
  · rfl

/-- Claim C7, behaviour of the code at the failing input: after one failed
`connect` (which arms a 2000 ms reconnect timeout), `disconnect` clears
the heartbeat but leaves the reconnect timeout pending — `scheduleReconnect`
never stores the `setTimeout` handle, so `disconnect` cannot clear it —
and when that timeout later fires it notifies `'reconnecting'` and
reconnects the torn-down session. -/
theorem c7_reconnect_timer_survives_disconnect :
    ((connect initialState "alice" true).state).pendingReconnect = some 2000
    ∧ ((disconnect (connect initialState "alice" true).state).1).pendingReconnect
        = some 2000
    ∧ ((disconnect (connect initialState "alice" true).state).1).heartbeatInterval
        = false
    ∧ (reconnectTimerFire
        ((disconnect (connect initialState "alice" true).state).1)
        false).notified
      = [ConnStatus.reconnecting, ConnStatus.connected] := by
  refine ⟨by decide, by decide, by decide, by decide⟩

/-- Claim C8: when the underlying transport errors during `connect`, the
`try` body throws, the `catch` swallows the error (`connect` still returns
an outcome, never a thrown failure), the state change is exactly a
`scheduleReconnect` of the session, nothing is transmitted, and the only
notification emitted is the `'disconnected'` connection-status one. -/
theorem c8_connect_error_contained (s : State) (u : String) :
    connectTryBody { s with currentUser := some u } true
      = Except.error "connect error"
    ∧ (connect s u true).notified = [ConnStatus.disconnected]
    ∧ (connect s u true).sent = []
    ∧ (connect s u true).state
        = (scheduleReconnect { s with currentUser := some u }).1
    ∧ (connect s u true).armedDelay
        = (scheduleReconnect { s with currentUser := some u }).2 := by
  refine ⟨rfl, ?_, ?_, ?_, ?_⟩ <;>
    simp [connect, connectTryBody]

/-- Claim C9: `isConnected` returns `true` in every state (socket present
or not, connected or not); consequently every `sendMessage` whose
encryption succeeds takes the immediate-transmit branch — state (and so
`messageQueue`) unchanged, one transmission — a `sendMessage` whose
encryption throws rethrows before touching the queue, and the four
ephemeral senders never take their drop branch: each transmits exactly one
envelope. -/
theorem c9_isConnected_always_true_so_no_queue_no_drop (s : State)
    (content recipient msgId device : String) (mt : MessageType)
    (fd : Option FileData) (now : Nat) (p : String × String)
    (isTyping : Bool) (status : PresenceStatus) :
    isConnected s = true
    ∧ sendMessage s content recipient mt fd msgId now (fun _ => some p)
      = some (s,
          [{ id := msgId
             type := MsgKind.message
             fromId := s.currentUser
             toId := recipient
             data := MsgData.messageData msgId p.1 p.2 mt fd now
             timestamp := now }],
          msgId)
    ∧ sendMessage s content recipient mt fd msgId now (fun _ => none) = none
    ∧ (sendTypingIndicator s recipient isTyping msgId now).1 = s
    ∧ (sendTypingIndicator s recipient isTyping msgId now).2.length = 1
    ∧ (updatePresence s status msgId now device).1 = s
    ∧ (updatePresence s status msgId now device).2.length = 1
    ∧ (sendDeliveryReceipt s msgId recipient msgId now).2.length = 1
    ∧ (sendReadReceipt s msgId recipient msgId now).2.length = 1 := by
  obtain ⟨encrypted, nonce⟩ := p
  refine ⟨?_, ?_, rfl, ?_, ?_, ?_, ?_, ?_, ?_⟩ <;>
    simp [isConnected, sendMessage, sendTypingIndicator, updatePresence,
      sendDeliveryReceipt, sendReadReceipt]

/-- Claim C10: `disconnect` leaves `messageQueue` exactly as it was, and a
subsequent successful `connect` drains that same queue, transmitting its
envelopes in FIFO order and leaving the queue empty. -/
theorem c10_queue_survives_disconnect_then_drains (s : State) (u : String) :
    ((disconnect s).1).messageQueue = s.messageQueue
    ∧ (connect (disconnect s).1 u false).sent = s.messageQueue
    ∧ ((connect (disconnect s).1 u false).state).messageQueue = [] := by
  have hq : ((disconnect s).1).messageQueue = s.messageQueue := by
    unfold disconnect
    rcases hs : s.socket with _ | sock <;>
      by_cases hb : s.heartbeatInterval <;>
        simp [hs, hb]
  refine ⟨hq, ?_, ?_⟩ <;>
    simp [connect, connectTryBody, startHeartbeat, processMessageQueue,
      processMessageQueueLoop_eq, hq]
